import Mathlib

/-
Verification of the zenoh-http plugin (plugins/zenoh-http/src/lib.rs):
a shallow embedding of its pure request-translation logic, followed by
theorems about the embedded definitions.

Conventions of the embedding:
- Rust strings are Lean `String`; byte buffers (`RBuf`, `Vec<u8>`) are `List Nat`
  with each element a byte value.
- External collaborators that the plugin calls (the zenoh-protocol `kind` and
  `encoding` tables, tide's `Mime`, Rust std string primitives) are modelled
  separately and marked as such; the plugin's own functions are translated
  directly from the source.
- Fallible operations of the transport (query, write, declare/undeclare of a
  subscriber, body reads) are inputs of type `Except String _`: the handler
  model is parameterised on the outcome the environment would produce.
-/

namespace ZenohHttp

/-! ## Rust std string primitives, modelled -/

/-- Model of Rust `str::split(sep)` for a one-character separator, on the
character list of the string: splits into the (possibly empty) chunks between
occurrences of `sep`; the empty string yields one empty chunk. -/
def splitChar (sep : Char) : List Char → List (List Char)
  | [] => [[]]
  | c :: rest =>
    if c = sep then [] :: splitChar sep rest
    else
      match splitChar sep rest with
      | h :: t => (c :: h) :: t
      | [] => [[c]]

/-- Model of Rust `[..].join(sep)` on string slices. -/
def joinWith (sep : String) : List String → String
  | [] => ""
  | [x] => x
  | x :: xs => x ++ sep ++ joinWith sep xs

/-- Model of Rust `str::parse::<u16>()`: optional leading plus sign, then one
or more ASCII digits, and the value must fit in 16 bits. Returns `none` on any
other input (empty, stray characters, minus sign, overflow). -/
def parseU16 (s : String) : Option Nat :=
  let cs := s.toList
  let ds := match cs with
    | '+' :: rest => rest
    | _ => cs
  if ds = [] then none
  else if ds.all Char.isDigit then
    let n := ds.foldl (fun a c => a * 10 + (c.toNat - 48)) 0
    if n < 65536 then some n else none
  else none

/-! ## Constants of the plugin (lib.rs lines 26-28) -/

def PORT_SEPARATOR : Char := ':'
def DEFAULT_HTTP_HOST : String := "0.0.0.0"
def DEFAULT_HTTP_PORT : String := "8000"

/-! ## Address resolver (lib.rs `parse_http_port`, lines 36-46) -/

/-- Translation of `parse_http_port`: match on `arg.split(':').count()`;
when the count is 1 (no separator), a successful `u16` parse prepends the
default host, a failed parse appends the default port; otherwise the argument
passes through unchanged. -/
def parse_http_port (arg : String) : String :=
  match (splitChar ':' arg.toList).length with
  | 1 =>
    match parseU16 arg with
    | some _ => joinWith PORT_SEPARATOR.toString [DEFAULT_HTTP_HOST, arg]
    | none => joinWith PORT_SEPARATOR.toString [arg, DEFAULT_HTTP_PORT]
  | _ => arg

/-! ### Lemmas about `splitChar` -/

theorem splitChar_ne_nil (sep : Char) (l : List Char) : splitChar sep l ≠ [] := by
  induction l with
  | nil => simp [splitChar]
  | cons c rest ih =>
    simp only [splitChar]
    split
    · simp
    · cases h : splitChar sep rest with
      | nil => simp
      | cons a t => simp

theorem splitChar_length_one_iff (sep : Char) (l : List Char) :
    (splitChar sep l).length = 1 ↔ sep ∉ l := by
  induction l with
  | nil => simp [splitChar]
  | cons c rest ih =>
    simp only [splitChar]
    by_cases hc : c = sep
    · subst hc
      simp only [if_pos rfl, List.length_cons]
      constructor
      · intro h
        exact absurd (List.length_eq_zero.mp (Nat.succ_injective h))
          (splitChar_ne_nil c rest)
      · intro h
        exact absurd (List.mem_cons_self c rest) h
    · rw [if_neg hc]
      cases h : splitChar sep rest with
      | nil => exact absurd h (splitChar_ne_nil sep rest)
      | cons a t =>
        simp only [List.length_cons, List.mem_cons]
        rw [h] at ih
        simp only [List.length_cons] at ih
        constructor
        · intro hlen
          intro hmem
          rcases hmem with h1 | h2
          · exact hc h1.symm
          · exact (ih.mp hlen) h2
        · intro hmem
          exact ih.mpr (fun hm => hmem (Or.inr hm))

/-! ## Lossy UTF-8 decoding (model of Rust `String::from_utf8_lossy`) -/

/-- A UTF-8 continuation byte: `0x80..=0xBF`. -/
def isCont (b : Nat) : Bool := 128 ≤ b && b ≤ 191

/-- The Unicode replacement character U+FFFD. -/
def replChar : Char := Char.ofNat 0xFFFD

/-- Worker for lossy UTF-8 decoding. Consumes at least one byte per step, so
fuel equal to the input length suffices. Valid sequences decode to their code
point; each maximal valid prefix of an ill-formed sequence is replaced by one
U+FFFD, as Rust does. -/
def utf8LossyAux : Nat → List Nat → List Char
  | 0, _ => []
  | _ + 1, [] => []
  | fuel + 1, b :: rest =>
    if b < 128 then
      Char.ofNat b :: utf8LossyAux fuel rest
    else if 194 ≤ b && b ≤ 223 then
      match rest with
      | b2 :: rest2 =>
        if isCont b2 then
          Char.ofNat ((b - 192) * 64 + (b2 - 128)) :: utf8LossyAux fuel rest2
        else replChar :: utf8LossyAux fuel rest
      | [] => [replChar]
    else if 224 ≤ b && b ≤ 239 then
      match rest with
      | b2 :: rest2 =>
        let okB2 : Bool :=
          if b = 224 then 160 ≤ b2 && b2 ≤ 191
          else if b = 237 then 128 ≤ b2 && b2 ≤ 159
          else isCont b2
        if okB2 then
          match rest2 with
          | b3 :: rest3 =>
            if isCont b3 then
              Char.ofNat ((b - 224) * 4096 + (b2 - 128) * 64 + (b3 - 128)) ::
                utf8LossyAux fuel rest3
            else replChar :: utf8LossyAux fuel rest2
          | [] => [replChar]
        else replChar :: utf8LossyAux fuel rest
      | [] => [replChar]
    else if 240 ≤ b && b ≤ 244 then
      match rest with
      | b2 :: rest2 =>
        let okB2 : Bool :=
          if b = 240 then 144 ≤ b2 && b2 ≤ 191
          else if b = 244 then 128 ≤ b2 && b2 ≤ 143
          else isCont b2
        if okB2 then
          match rest2 with
          | b3 :: rest3 =>
            if isCont b3 then
              match rest3 with
              | b4 :: rest4 =>
                if isCont b4 then
                  Char.ofNat ((b - 240) * 262144 + (b2 - 128) * 4096 +
                    (b3 - 128) * 64 + (b4 - 128)) :: utf8LossyAux fuel rest4
                else replChar :: utf8LossyAux fuel rest3
              | [] => [replChar]
            else replChar :: utf8LossyAux fuel rest2
          | [] => [replChar]
        else replChar :: utf8LossyAux fuel rest
      | [] => [replChar]
    else replChar :: utf8LossyAux fuel rest

/-- Model of Rust `String::from_utf8_lossy` on a byte list. -/
def from_utf8_lossy (l : List Nat) : String := ⟨utf8LossyAux l.length l⟩

/-- Byte list of an ASCII string (used to build concrete payloads). -/
def asciiBytes (s : String) : List Nat := s.toList.map Char.toNat

/-! ## zenoh-protocol externals, modelled

The plugin links against `zenoh_protocol::proto::{kind, encoding}` and reads
`DataInfo` values from sample metadata; those crates are not part of the
plugin source, so they are modelled here from the spec. -/

namespace kind

/-- Modelled from the spec: the write-kind tags create/update/remove plus a
default; the default kind is rendered as the string PUT. Concrete numeric
values are immaterial to the claims; only the table shape matters. -/
def PUT : Nat := 0

def UPDATE : Nat := 1

def REMOVE : Nat := 2

def DEFAULT : Nat := PUT

/-- Modelled from the spec: `kind::to_str` renders the known kind tags and
fails on any other value. -/
def to_str (k : Nat) : Except String String :=
  if k = PUT then Except.ok "PUT"
  else if k = UPDATE then Except.ok "UPDATE"
  else if k = REMOVE then Except.ok "REMOVE"
  else Except.error "unknown kind"

end kind

namespace encoding

/-- Modelled from the spec: the generic octet-stream encoding tag. -/
def APP_OCTET_STREAM : Nat := 0

/-- Modelled from the spec: the plain-text encoding tag. -/
def TEXT_PLAIN : Nat := 2

end encoding

/-- Modelled from the spec: the slice of `DataInfo` the plugin reads — an
optional write-kind tag. -/
structure DataInfo where
  kind : Option Nat
  deriving DecidableEq

/-- Modelled from the spec: tide's `Mime` as its essence string
(type/subtype, no parameters). -/
structure Mime where
  essence : String
  deriving DecidableEq

/-- Modelled from the spec: `Mime::basetype` is the part of the essence
before the slash. -/
def Mime.basetype (m : Mime) : String :=
  ⟨m.essence.toList.takeWhile (fun c => c ≠ '/')⟩

/-! ## Data model -/

/-- A zenoh-net `Sample`: resource key, payload bytes, optional serialized
data-info buffer. -/
abbrev Sample := String × List Nat × Option (List Nat)

/-- A zenoh-net `Reply`: the data variant carries a sample (resource key,
payload, optional info); the source-final and reply-final variants carry no
data. -/
inductive Reply where
  | replyData (reskey : String) (payload : List Nat) (info : Option (List Nat))
  | sourceFinal
  | replyFinal
  deriving DecidableEq

/-! ## Kind extraction (lib.rs `get_kind_str`, lines 48-61)

Reading a `DataInfo` out of the serialized metadata buffer
(`buf.read_datainfo()`) is zenoh-protocol code outside the plugin source, so
the translation is parameterised on that reader. -/

/-- Translation of `get_kind_str`: take the sample's optional metadata buffer;
a present buffer is parsed with `rd`, a successful parse supplies the optional
kind tag defaulted to `kind::DEFAULT`, a failed parse or absent buffer yields
`kind::DEFAULT`; finally `kind::to_str` renders the tag, with the literal
string PUT when rendering fails. -/
def get_kind_str (rd : List Nat → Except String DataInfo) (sample : Sample) : String :=
  let info := sample.2.2
  let k := match info with
    | some buf =>
      match rd buf with
      | Except.ok i => (i.kind.or (some kind.DEFAULT)).getD 0
      | Except.error _ => kind.DEFAULT
    | none => kind.DEFAULT
  match kind.to_str k with
  | Except.ok string => string
  | Except.error _ => "PUT"

/-! ## Rendering (lib.rs `sample_to_json`/`to_json`/`sample_to_html`/`to_html`,
lines 63-91) -/

/-- Translation of `sample_to_json`: formats the resource key, the lossy-UTF-8
decoded payload and the literal placeholder None into a JSON-shaped object
(the source marks the timestamp as TODO). -/
def sample_to_json (sample : Sample) : String :=
  let reskey := sample.1
  let payload := sample.2.1
  "\x7b \"key\": \"" ++ reskey ++ "\", \"value\": \"" ++
    from_utf8_lossy payload ++ "\", \"time\": \"" ++ "None" ++ "\" \x7d"

/-- Translation of `to_json`: filter-map the reply stream, keeping only
`ReplyData` entries rendered by `sample_to_json`, join with comma-newline, and
wrap in a bracketed block. -/
def to_json (results : List Reply) : String :=
  let values := String.intercalate ",\n"
    (results.filterMap fun reply =>
      match reply with
      | Reply.replyData reskey payload info =>
        some (sample_to_json (reskey, payload, info))
      | _ => none)
  "[\n" ++ values ++ "\n]\n"

/-- Translation of `sample_to_html`: a dt/dd pair for key and lossy-decoded
payload. -/
def sample_to_html (sample : Sample) : String :=
  let reskey := sample.1
  let payload := sample.2.1
  "<dt>" ++ reskey ++ "</dt>\n<dd>" ++ from_utf8_lossy payload ++ "</dd>\n"

/-- Translation of `to_html`: filter-map the reply stream through
`sample_to_html`, join with newline, and wrap in a dl block. -/
def to_html (results : List Reply) : String :=
  let values := String.intercalate "\n"
    (results.filterMap fun reply =>
      match reply with
      | Reply.replyData reskey payload info =>
        some (sample_to_html (reskey, payload, info))
      | _ => none)
  "<dl>\n" ++ values ++ "\n</dl>\n"

/-- Specification-side projection: the samples carried by the data-variant
replies of a stream, in arrival order. -/
def dataSamples (results : List Reply) : List Sample :=
  results.filterMap fun reply =>
    match reply with
    | Reply.replyData reskey payload info => some (reskey, payload, info)
    | _ => none

/-! ## Encoding inference (lib.rs `enc_from_mime`, lines 93-106)

The direct essence-string table `zenoh_protocol::proto::encoding::from_str`
is external to the plugin, so the translation is parameterised on it. -/

/-- Translation of `enc_from_mime`: with a MIME type present, try the direct
essence mapping, else fall back on the base type (text maps to the plain-text
tag, everything else to the octet-stream tag); with no MIME type, the
octet-stream tag. -/
def enc_from_mime (fromStr : String → Option Nat) (mime : Option Mime) : Nat :=
  match mime with
  | some m =>
    match fromStr m.essence with
    | some enc => enc
    | none =>
      if m.basetype = "text" then encoding.TEXT_PLAIN
      else encoding.APP_OCTET_STREAM
  | none => encoding.APP_OCTET_STREAM

/-! ## Response builder (lib.rs `response`, lines 108-113) -/

/-- An HTTP response as the handlers observe it: status code, optional
content type, body. `Response::new(status)` leaves content type and body at
their defaults (none and empty). -/
structure Resp where
  status : Nat
  contentType : Option String
  body : String
  deriving DecidableEq

/-- Translation of `response`: build a response from status, content type and
body. -/
def response (status : Nat) (content_type : String) (body : String) : Resp :=
  { status := status, contentType := some content_type, body := body }

/-! ## Accept negotiation (lib.rs `run`, lines 142-146) -/

/-- Translation of the `first_accept` computation: with an accept header
present, take the first chunk of splitting on a semicolon, then the first
chunk of splitting that on a comma; with no header, the literal
application/json. -/
def first_accept (accept : Option String) : String :=
  match accept with
  | some a =>
    ⟨(splitChar ',' ((splitChar ';' a.toList).headD [])).headD []⟩
  | none => "application/json"

/-! ## The SSE push task (lib.rs `run`, lines 148-171)

The spawned task declares a subscriber (`.unwrap()` — a declare failure
panics the task), then loops: await the next sample (no timeout on this
await), then race the outbound send against a 10-second sleep; when the sleep
wins, undeclare the subscriber once (an undeclare error is only logged) and
break. The model drives the loop with a finite trace of events, one per
arrived sample, each recording how long the sample took to arrive and whether
the send won the race. -/

/-- One observed iteration of the SSE loop: the sample delivered by the
subscription, the time (seconds, unbounded) the loop waited for it, and
whether the outbound send completed before the 10-second timer. -/
structure SseEvent where
  sample : Sample
  arrivalDelay : Nat
  sendWithin10s : Bool

/-- Observable outcome of the SSE loop on a finite trace: the events pushed
to the client (event name, data), how many times the subscriber was
undeclared, and whether the loop terminated. -/
structure SseOutcome where
  pushed : List (String × String)
  undeclared : Nat
  terminated : Bool
  deriving DecidableEq

/-- Environment of one accepted SSE connection: the outcome of the declare
call, the trace of the subscription, the outcome the transport would give the
undeclare call, and the external data-info reader. -/
structure SseEnv where
  declareResult : Except String Unit
  events : List SseEvent
  undeclareResult : Except String Unit
  readDatainfo : List Nat → Except String DataInfo

/-- Translation of the SSE loop body: per event, when the send wins the race
the pushed event (name from `get_kind_str`, data from `sample_to_json`) is
recorded and the loop continues; when the 10-second timer wins, the
subscriber is undeclared (the result `ud` is only logged) and the loop
breaks. An exhausted trace leaves the loop awaiting the next sample. -/
def sseLoop (rd : List Nat → Except String DataInfo) (ud : Except String Unit) :
    List SseEvent → SseOutcome
  | [] => { pushed := [], undeclared := 0, terminated := false }
  | e :: rest =>
    if e.sendWithin10s then
      let o := sseLoop rd ud rest
      { pushed := (get_kind_str rd e.sample, sample_to_json e.sample) :: o.pushed,
        undeclared := o.undeclared, terminated := o.terminated }
    else
      { pushed := [], undeclared := 1, terminated := true }

/-- Outcome of the detached SSE task: `panicked` models the `.unwrap()` on a
failed subscriber declaration; otherwise the loop runs on the trace. -/
inductive TaskOutcome where
  | panicked
  | ran (outcome : SseOutcome)
  deriving DecidableEq

/-- Translation of the detached task spawned on an SSE upgrade: unwrap the
declare result, then run the push loop. -/
def sseTaskRun (env : SseEnv) : TaskOutcome :=
  match env.declareResult with
  | Except.error _ => TaskOutcome.panicked
  | Except.ok _ => TaskOutcome.ran (sseLoop env.readDatainfo env.undeclareResult env.events)

/-! ## The GET handler (lib.rs `run`, lines 139-201) -/

/-- Outcome of the GET route: either the connection was upgraded to an SSE
stream (with the detached task's behaviour), or a plain response was
returned. -/
inductive GetOutcome where
  | sseUpgrade (task : TaskOutcome)
  | plain (resp : Resp)
  deriving DecidableEq

/-- Translation of the GET route: dispatch on the first accept token; the
event-stream token upgrades and spawns the push task, the html token renders
the query result as HTML (200) or the error as plain text (500), anything
else renders JSON the same way. -/
def get_handler (accept : Option String) (queryResult : Except String (List Reply))
    (env : SseEnv) : GetOutcome :=
  let fa := first_accept accept
  if fa = "text/event-stream" then
    GetOutcome.sseUpgrade (sseTaskRun env)
  else if fa = "text/html" then
    match queryResult with
    | Except.ok stream => GetOutcome.plain (response 200 "text/html" (to_html stream))
    | Except.error e => GetOutcome.plain (response 500 "text/plain" e)
  else
    match queryResult with
    | Except.ok stream => GetOutcome.plain (response 200 "application/json" (to_json stream))
    | Except.error e => GetOutcome.plain (response 500 "text/plain" e)

/-- Bool-valued check that a GET outcome is a plain HTTP 500 whose body is
the given error text (the shape the spec prescribes for transport
failures). -/
def isServerError500 (o : GetOutcome) (msg : String) : Bool :=
  match o with
  | GetOutcome.plain r => r.status == 500 && r.body == msg
  | _ => false

/-! ## Write handlers (lib.rs `run`, lines 203-246) -/

/-- A write issued to the transport: path, payload, inferred encoding tag,
write-kind tag. -/
structure WriteOp where
  path : String
  payload : List Nat
  encoding : Nat
  kind : Nat
  deriving DecidableEq

/-- Translation of the PUT route: a readable body is written with kind
`kind::PUT` (success responds 200 with default body, failure 500 with the
error text); an unreadable body responds 204 with the error text and no
write. The returned list records the writes issued. -/
def put_handler (path : String) (fromStr : String → Option Nat)
    (contentType : Option Mime) (body : Except String (List Nat))
    (writeResult : Except String Unit) : Resp × List WriteOp :=
  match body with
  | Except.ok bytes =>
    let op : WriteOp :=
      { path := path, payload := bytes,
        encoding := enc_from_mime fromStr contentType, kind := kind.PUT }
    match writeResult with
    | Except.ok _ => ({ status := 200, contentType := none, body := "" }, [op])
    | Except.error e => (response 500 "text/plain" e, [op])
  | Except.error e => (response 204 "text/plain" e, [])

/-- Translation of the PATCH route: identical to PUT except the write kind is
`kind::UPDATE`. -/
def patch_handler (path : String) (fromStr : String → Option Nat)
    (contentType : Option Mime) (body : Except String (List Nat))
    (writeResult : Except String Unit) : Resp × List WriteOp :=
  match body with
  | Except.ok bytes =>
    let op : WriteOp :=
      { path := path, payload := bytes,
        encoding := enc_from_mime fromStr contentType, kind := kind.UPDATE }
    match writeResult with
    | Except.ok _ => ({ status := 200, contentType := none, body := "" }, [op])
    | Except.error e => (response 500 "text/plain" e, [op])
  | Except.error e => (response 204 "text/plain" e, [])

/-- Translation of the DELETE route: no body is read; an empty payload is
written with kind `kind::REMOVE` (success 200 with default body, failure 500
with the error text). -/
def delete_handler (path : String) (fromStr : String → Option Nat)
    (contentType : Option Mime) (writeResult : Except String Unit) :
    Resp × List WriteOp :=
  let op : WriteOp :=
    { path := path, payload := [],
      encoding := enc_from_mime fromStr contentType, kind := kind.REMOVE }
  match writeResult with
  | Except.ok _ => ({ status := 200, contentType := none, body := "" }, [op])
  | Except.error e => (response 500 "text/plain" e, [op])

/-! ## A JSON well-formedness checker (specification side, for C9)

A plain recursive-descent recogniser of the JSON grammar (json.org), used
only to judge whether rendered bodies are well-formed JSON. -/

/-- Drop JSON insignificant whitespace. -/
def jsonSkipWs : List Char → List Char
  | c :: rest =>
    if c = ' ' || c = '\t' || c = '\n' || c = '\r' then jsonSkipWs rest
    else c :: rest
  | [] => []

/-- A hexadecimal digit. -/
def isHexDigit (c : Char) : Bool :=
  c.isDigit || ('a' ≤ c && c ≤ 'f') || ('A' ≤ c && c ≤ 'F')

/-- Recognise the remainder of a JSON string after its opening quote;
return the input following the closing quote. -/
def jsonStringRest : List Char → Option (List Char)
  | [] => none
  | c :: rest =>
    if c = '"' then some rest
    else if c = '\\' then
      match rest with
      | e :: rest2 =>
        if e = '"' || e = '\\' || e = '/' || e = 'b' || e = 'f' ||
           e = 'n' || e = 'r' || e = 't' then jsonStringRest rest2
        else if e = 'u' then
          match rest2 with
          | h1 :: h2 :: h3 :: h4 :: rest3 =>
            if isHexDigit h1 && isHexDigit h2 && isHexDigit h3 && isHexDigit h4 then
              jsonStringRest rest3
            else none
          | _ => none
        else none
      | [] => none
    else if c.toNat < 32 then none
    else jsonStringRest rest

/-- Recognise a JSON number; return the input following it, or none when the
input does not start with a number. -/
def jsonNumberRest (l : List Char) : Option (List Char) :=
  let afterMinus := match l with
    | '-' :: rest => rest
    | _ => l
  let intPart : Option (List Char) := match afterMinus with
    | '0' :: rest => some rest
    | c :: rest =>
      if c.isDigit then some (rest.dropWhile Char.isDigit) else none
    | [] => none
  match intPart with
  | none => none
  | some afterInt =>
    let afterFrac := match afterInt with
      | '.' :: c :: rest =>
        if c.isDigit then some (rest.dropWhile Char.isDigit) else none
      | '.' :: [] => none
      | _ => some afterInt
    match afterFrac with
    | none => none
    | some af =>
      match af with
      | 'e' :: rest | 'E' :: rest =>
        let rest2 := match rest with
          | '+' :: r => r
          | '-' :: r => r
          | _ => rest
        match rest2 with
        | c :: r => if c.isDigit then some (r.dropWhile Char.isDigit) else none
        | [] => none
      | _ => some af

/-- The three modes of the JSON recogniser: a value, the member list of an
object, the item list of an array. -/
inductive JMode where
  | value
  | members
  | items

/-- Recognise one JSON fragment in the given mode (fuel-indexed, structural
on the fuel); return the input following the fragment, or none when the input
is not such a fragment. -/
def jsonRest : Nat → JMode → List Char → Option (List Char)
  | 0, _, _ => none
  | fuel + 1, JMode.value, l =>
    match jsonSkipWs l with
    | [] => none
    | c :: rest =>
      if c = '"' then jsonStringRest rest
      else if c = Char.ofNat 123 then
        match jsonSkipWs rest with
        | d :: rest2 =>
          if d = Char.ofNat 125 then some rest2
          else jsonRest fuel JMode.members (d :: rest2)
        | [] => none
      else if c = '[' then
        match jsonSkipWs rest with
        | d :: rest2 =>
          if d = ']' then some rest2
          else jsonRest fuel JMode.items (d :: rest2)
        | [] => none
      else if c = 't' then
        match rest with
        | 'r' :: 'u' :: 'e' :: r => some r
        | _ => none
      else if c = 'f' then
        match rest with
        | 'a' :: 'l' :: 's' :: 'e' :: r => some r
        | _ => none
      else if c = 'n' then
        match rest with
        | 'u' :: 'l' :: 'l' :: r => some r
        | _ => none
      else jsonNumberRest (c :: rest)
  | fuel + 1, JMode.members, l =>
    match jsonSkipWs l with
    | c :: rest =>
      if c = '"' then
        match jsonStringRest rest with
        | some afterKey =>
          match jsonSkipWs afterKey with
          | ':' :: afterColon =>
            match jsonRest fuel JMode.value afterColon with
            | some afterVal =>
              match jsonSkipWs afterVal with
              | ',' :: afterComma => jsonRest fuel JMode.members afterComma
              | d :: afterBrace =>
                if d = Char.ofNat 125 then some afterBrace else none
              | [] => none
            | none => none
          | _ => none
        | none => none
      else none
    | [] => none
  | fuel + 1, JMode.items, l =>
    match jsonRest fuel JMode.value l with
    | some afterVal =>
      match jsonSkipWs afterVal with
      | ',' :: afterComma => jsonRest fuel JMode.items afterComma
      | ']' :: afterBracket => some afterBracket
      | _ => none
    | none => none

/-- A string is well-formed JSON when it is exactly one JSON value surrounded
by whitespace. -/
def jsonWellFormed (s : String) : Bool :=
  match jsonRest (s.length + 2) JMode.value s.toList with
  | some rest => (jsonSkipWs rest).isEmpty
  | none => false

/-- Bool-valued substring check. -/
def strContains (hay needle : String) : Bool :=
  hay.toList.tails.any (fun t => needle.toList.isPrefixOf t)

/-! ## Claim theorems -/

/-- C7: the address resolver maps a separator-free string that parses as a
16-bit unsigned integer to the default host prefixed, a separator-free string
that does not so parse to the default port appended, and any string with a
separator to itself; in particular 9000, myhost and myhost:9000 map to
0.0.0.0:9000, myhost:8000 and myhost:9000, and being a total function it
never fails. -/
theorem c7_parse_http_port_cases :
    (∀ s : String, ':' ∉ s.toList → (parseU16 s).isSome →
      parse_http_port s = "0.0.0.0:" ++ s) ∧
    (∀ s : String, ':' ∉ s.toList → parseU16 s = none →
      parse_http_port s = s ++ ":8000") ∧
    (∀ s : String, ':' ∈ s.toList → parse_http_port s = s) ∧
    parse_http_port "9000" = "0.0.0.0:9000" ∧
    parse_http_port "myhost" = "myhost:8000" ∧
    parse_http_port "myhost:9000" = "myhost:9000" := by
  refine ⟨?_, ?_, ?_, by rfl, by rfl, by rfl⟩
  · intro s h h2
    unfold parse_http_port
    rw [(splitChar_length_one_iff ':' s.toList).mpr h]
    obtain ⟨n, hn⟩ := Option.isSome_iff_exists.mp h2
    rw [hn]
    show "0.0.0.0" ++ ":" ++ s = "0.0.0.0:" ++ s
    rfl
  · intro s h h2
    unfold parse_http_port
    rw [(splitChar_length_one_iff ':' s.toList).mpr h, h2]
    show s ++ ":" ++ "8000" = s ++ ":8000"
    simp [String.append_assoc]
  · intro s h
    unfold parse_http_port
    cases hl : (splitChar ':' s.toList).length with
    | zero => rfl
    | succ m =>
      cases m with
      | zero =>
        exact absurd ((splitChar_length_one_iff ':' s.toList).mp hl) (fun hn => hn h)
      | succ k => rfl

/-- C7 witness: the three rules of the resolver exercised at the spec's own
concrete inputs. -/
theorem c7_parse_http_port_cases_witness :
    parse_http_port "9000" = "0.0.0.0:" ++ "9000" ∧
    parse_http_port "myhost" = "myhost" ++ ":8000" ∧
    parse_http_port "myhost:9000" = "myhost:9000" :=
  ⟨c7_parse_http_port_cases.1 "9000" (by decide) (by decide),
   c7_parse_http_port_cases.2.1 "myhost" (by decide) (by decide),
   c7_parse_http_port_cases.2.2.1 "myhost:9000" (by decide)⟩

/-! ### Helper lemmas for the rendering claims -/

theorem strContains_of_split (hay x v y : String) (h : hay = x ++ (v ++ y)) :
    strContains hay v = true := by
  subst h
  simp only [strContains, List.any_eq_true]
  refine ⟨v.toList ++ y.toList, ?_, ?_⟩
  · rw [List.mem_tails]
    exact ⟨x.toList, rfl⟩
  · rw [List.isPrefixOf_iff_prefix]
    exact ⟨y.toList, rfl⟩

theorem json_values_eq (rs : List Reply) :
    (rs.filterMap fun reply =>
      match reply with
      | Reply.replyData reskey payload info =>
        some (sample_to_json (reskey, payload, info))
      | _ => none) = (dataSamples rs).map sample_to_json := by
  induction rs with
  | nil => rfl
  | cons r rest ih => cases r <;> simp_all [dataSamples, List.filterMap_cons]

theorem html_values_eq (rs : List Reply) :
    (rs.filterMap fun reply =>
      match reply with
      | Reply.replyData reskey payload info =>
        some (sample_to_html (reskey, payload, info))
      | _ => none) = (dataSamples rs).map sample_to_html := by
  induction rs with
  | nil => rfl
  | cons r rest ih => cases r <;> simp_all [dataSamples, List.filterMap_cons]

theorem sample_to_json_shape (p : String) (b : List Nat) (i : Option (List Nat)) :
    sample_to_json (p, b, i) =
      "\x7b \"key\": \"" ++ p ++ "\", \"value\": \"" ++ from_utf8_lossy b ++
        "\", \"time\": \"None\" \x7d" := by
  simp only [sample_to_json, String.append_assoc]
  congr 1

/-- C3: the non-streaming GET renderings drain the whole reply stream: the
rendered body is built from exactly the data-variant replies in arrival
order, and inserting a non-data reply (source-final or reply-final) anywhere
in the stream leaves the rendered body unchanged. -/
theorem c3_reply_stream_drain :
    (∀ rs : List Reply, to_json rs =
      "[\n" ++ String.intercalate ",\n" ((dataSamples rs).map sample_to_json) ++ "\n]\n") ∧
    (∀ rs : List Reply, to_html rs =
      "<dl>\n" ++ String.intercalate "\n" ((dataSamples rs).map sample_to_html) ++ "\n</dl>\n") ∧
    (∀ pre post : List Reply,
      to_json (pre ++ Reply.sourceFinal :: post) = to_json (pre ++ post)) ∧
    (∀ pre post : List Reply,
      to_json (pre ++ Reply.replyFinal :: post) = to_json (pre ++ post)) ∧
    (∀ pre post : List Reply,
      to_html (pre ++ Reply.sourceFinal :: post) = to_html (pre ++ post)) ∧
    (∀ pre post : List Reply,
      to_html (pre ++ Reply.replyFinal :: post) = to_html (pre ++ post)) := by
  refine ⟨fun rs => ?_, fun rs => ?_, ?_, ?_, ?_, ?_⟩
  · simp only [to_json]
    rw [json_values_eq]
  · simp only [to_html]
    rw [html_values_eq]
  all_goals
    intro pre post
    simp [to_json, to_html, List.filterMap_append, List.filterMap_cons]

theorem map_replyData_filterMap (samples : List Sample) :
    ((samples.map fun s => Reply.replyData s.1 s.2.1 s.2.2).filterMap fun reply =>
      match reply with
      | Reply.replyData reskey payload info =>
        some (sample_to_json (reskey, payload, info))
      | _ => none) = samples.map sample_to_json := by
  induction samples with
  | nil => rfl
  | cons s rest ih => simp [List.filterMap_cons, ih]

/-- C8: every sample renders as a JSON-shaped object whose time field is
always the literal placeholder None; a stream of data replies renders its
objects comma-and-newline joined inside a top-level array; no results render
exactly the open bracket, two newlines, close bracket, newline; and the one
concrete Sample of the spec renders with its key and value inserted. -/
theorem c8_json_object_shape :
    (∀ (p : String) (b : List Nat) (i : Option (List Nat)),
      sample_to_json (p, b, i) =
        "\x7b \"key\": \"" ++ p ++ "\", \"value\": \"" ++ from_utf8_lossy b ++
          "\", \"time\": \"None\" \x7d") ∧
    (∀ samples : List Sample,
      to_json (samples.map fun s => Reply.replyData s.1 s.2.1 s.2.2) =
        "[\n" ++ String.intercalate ",\n" (samples.map sample_to_json) ++ "\n]\n") ∧
    to_json [] = "[\n\n]\n" ∧
    to_json [Reply.replyData "/a" (asciiBytes "v") none] =
      "[\n\x7b \"key\": \"/a\", \"value\": \"v\", \"time\": \"None\" \x7d\n]\n" := by
  refine ⟨sample_to_json_shape, fun samples => ?_, by rfl, by rfl⟩
  simp only [to_json]
  rw [map_replyData_filterMap]

/-- C9: the JSON and HTML renderers insert the resource path and the
lossy-decoded payload verbatim, with no character escaping (each output
literally contains them as substrings, and the HTML rendering is exactly the
unescaped concatenation); consequently a payload consisting of one
double-quote byte yields a body that is not well-formed JSON, and a payload
carrying markup is embedded unescaped in the HTML body. -/
theorem c9_verbatim_insertion :
    (∀ (p : String) (b : List Nat) (i : Option (List Nat)),
      sample_to_html (p, b, i) =
        "<dt>" ++ p ++ "</dt>\n<dd>" ++ from_utf8_lossy b ++ "</dd>\n") ∧
    (∀ (p : String) (b : List Nat) (i : Option (List Nat)),
      strContains (sample_to_json (p, b, i)) p = true ∧
      strContains (sample_to_json (p, b, i)) (from_utf8_lossy b) = true ∧
      strContains (sample_to_html (p, b, i)) p = true ∧
      strContains (sample_to_html (p, b, i)) (from_utf8_lossy b) = true) ∧
    jsonWellFormed (to_json [Reply.replyData "/a" [34] none]) = false ∧
    strContains (sample_to_html ("/a", asciiBytes "<script>evil</script>", none))
      "<script>evil</script>" = true := by
  refine ⟨fun p b i => rfl, fun p b i => ⟨?_, ?_, ?_, ?_⟩, by decide, by decide⟩
  · apply strContains_of_split _ "\x7b \"key\": \"" p
      ("\", \"value\": \"" ++ (from_utf8_lossy b ++ ("\", \"time\": \"" ++ ("None" ++ "\" \x7d"))))
    simp [sample_to_json, String.append_assoc]
  · apply strContains_of_split _ ("\x7b \"key\": \"" ++ (p ++ "\", \"value\": \""))
      (from_utf8_lossy b) ("\", \"time\": \"" ++ ("None" ++ "\" \x7d"))
    simp [sample_to_json, String.append_assoc]
  · apply strContains_of_split _ "<dt>" p
      ("</dt>\n<dd>" ++ (from_utf8_lossy b ++ "</dd>\n"))
    simp [sample_to_html, String.append_assoc]
  · apply strContains_of_split _ ("<dt>" ++ (p ++ "</dt>\n<dd>"))
      (from_utf8_lossy b) "</dd>\n"
    simp [sample_to_html, String.append_assoc]

theorem splitChar_headD (sep : Char) (l : List Char) :
    (splitChar sep l).headD [] = l.takeWhile (fun c => c != sep) := by
  induction l with
  | nil => rfl
  | cons c rest ih =>
    simp only [splitChar, List.takeWhile]
    by_cases hc : c = sep
    · subst hc
      simp
    · rw [if_neg hc]
      cases h : splitChar sep rest with
      | nil => exact absurd h (splitChar_ne_nil sep rest)
      | cons a t =>
        rw [h] at ih
        simp only [List.headD] at ih ⊢
        have hb : (c != sep) = true := by simp [hc]
        rw [hb]
        simp only [ih]

/-- A concrete SSE environment in which nothing noteworthy happens, used to
instantiate handler theorems at closed inputs. -/
def envNoSse : SseEnv :=
  { declareResult := Except.ok (), events := [], undeclareResult := Except.ok (),
    readDatainfo := fun _ => Except.error "no datainfo" }

/-- C4: the negotiated representation comes from the Accept header by taking
the first semicolon-delimited token and then the first comma-delimited token
of that (an absent header defaulting to application/json); text/event-stream
selects the streaming upgrade, text/html selects HTML rendering, anything
else selects JSON rendering, and the spec's concrete header selects the
streaming path. -/
theorem c4_accept_negotiation :
    (∀ s : String, first_accept (some s) =
      ⟨(s.toList.takeWhile (fun c => c != ';')).takeWhile (fun c => c != ',')⟩) ∧
    first_accept none = "application/json" ∧
    first_accept (some "text/event-stream, text/html;q=0.9") = "text/event-stream" ∧
    (∀ qr env, get_handler (some "text/event-stream, text/html;q=0.9") qr env =
      GetOutcome.sseUpgrade (sseTaskRun env)) ∧
    (∀ env rs, get_handler (some "text/html") (Except.ok rs) env =
      GetOutcome.plain (response 200 "text/html" (to_html rs))) ∧
    (∀ env rs, get_handler none (Except.ok rs) env =
      GetOutcome.plain (response 200 "application/json" (to_json rs))) ∧
    (∀ accept env rs, first_accept accept ≠ "text/event-stream" →
      first_accept accept ≠ "text/html" →
      get_handler accept (Except.ok rs) env =
        GetOutcome.plain (response 200 "application/json" (to_json rs))) := by
  refine ⟨fun s => ?_, rfl, rfl, fun qr env => rfl, fun env rs => rfl,
    fun env rs => rfl, fun accept env rs h1 h2 => ?_⟩
  · simp only [first_accept]
    rw [splitChar_headD, splitChar_headD]
  · simp only [get_handler]
    rw [if_neg h1, if_neg h2]

/-- C4 witness: an Accept header that is neither the streaming nor the HTML
token selects JSON rendering. -/
theorem c4_accept_negotiation_witness :
    get_handler (some "application/xml") (Except.ok []) envNoSse =
      GetOutcome.plain (response 200 "application/json" (to_json [])) :=
  c4_accept_negotiation.2.2.2.2.2.2 (some "application/xml") envNoSse []
    (by decide) (by decide)

/-- C5: on PUT, PATCH and DELETE a successful native write responds 200 with
an empty body, a failed native write responds 500 with the failure text as a
plain-text body, and on PUT and PATCH an unreadable body responds 204 with
the error text while issuing no native write at all. -/
theorem c5_write_path_statuses :
    (∀ (p : String) (fromStr : String → Option Nat) (ct : Option Mime)
        (bytes : List Nat),
      put_handler p fromStr ct (Except.ok bytes) (Except.ok ()) =
        ({ status := 200, contentType := none, body := "" },
         [{ path := p, payload := bytes, encoding := enc_from_mime fromStr ct,
            kind := kind.PUT }])) ∧
    (∀ (p : String) (fromStr : String → Option Nat) (ct : Option Mime)
        (bytes : List Nat) (e : String),
      put_handler p fromStr ct (Except.ok bytes) (Except.error e) =
        (response 500 "text/plain" e,
         [{ path := p, payload := bytes, encoding := enc_from_mime fromStr ct,
            kind := kind.PUT }])) ∧
    (∀ (p : String) (fromStr : String → Option Nat) (ct : Option Mime)
        (e : String) (wr : Except String Unit),
      put_handler p fromStr ct (Except.error e) wr =
        (response 204 "text/plain" e, [])) ∧
    (∀ (p : String) (fromStr : String → Option Nat) (ct : Option Mime)
        (bytes : List Nat),
      patch_handler p fromStr ct (Except.ok bytes) (Except.ok ()) =
        ({ status := 200, contentType := none, body := "" },
         [{ path := p, payload := bytes, encoding := enc_from_mime fromStr ct,
            kind := kind.UPDATE }])) ∧
    (∀ (p : String) (fromStr : String → Option Nat) (ct : Option Mime)
        (bytes : List Nat) (e : String),
      patch_handler p fromStr ct (Except.ok bytes) (Except.error e) =
        (response 500 "text/plain" e,
         [{ path := p, payload := bytes, encoding := enc_from_mime fromStr ct,
            kind := kind.UPDATE }])) ∧
    (∀ (p : String) (fromStr : String → Option Nat) (ct : Option Mime)
        (e : String) (wr : Except String Unit),
      patch_handler p fromStr ct (Except.error e) wr =
        (response 204 "text/plain" e, [])) ∧
    (∀ (p : String) (fromStr : String → Option Nat) (ct : Option Mime),
      delete_handler p fromStr ct (Except.ok ()) =
        ({ status := 200, contentType := none, body := "" },
         [{ path := p, payload := [], encoding := enc_from_mime fromStr ct,
            kind := kind.REMOVE }])) ∧
    (∀ (p : String) (fromStr : String → Option Nat) (ct : Option Mime)
        (e : String),
      delete_handler p fromStr ct (Except.error e) =
        (response 500 "text/plain" e,
         [{ path := p, payload := [], encoding := enc_from_mime fromStr ct,
            kind := kind.REMOVE }])) :=
  ⟨fun _ _ _ _ => rfl, fun _ _ _ _ _ => rfl, fun _ _ _ _ _ => rfl,
   fun _ _ _ _ => rfl, fun _ _ _ _ _ => rfl, fun _ _ _ _ _ => rfl,
   fun _ _ _ => rfl, fun _ _ _ _ => rfl⟩

/-- C6: the write-path encoding tag is the direct essence mapping when the
external table has one, the plain-text tag when it has none and the MIME base
type is text, the octet-stream tag when it has none and the base type is
anything else, and the octet-stream tag when no MIME type was supplied. -/
theorem c6_encoding_inference :
    (∀ (fromStr : String → Option Nat) (m : Mime) (enc : Nat),
      fromStr m.essence = some enc → enc_from_mime fromStr (some m) = enc) ∧
    (∀ (fromStr : String → Option Nat) (m : Mime),
      fromStr m.essence = none → m.basetype = "text" →
      enc_from_mime fromStr (some m) = encoding.TEXT_PLAIN) ∧
    (∀ (fromStr : String → Option Nat) (m : Mime),
      fromStr m.essence = none → m.basetype ≠ "text" →
      enc_from_mime fromStr (some m) = encoding.APP_OCTET_STREAM) ∧
    (∀ fromStr : String → Option Nat,
      enc_from_mime fromStr none = encoding.APP_OCTET_STREAM) := by
  refine ⟨fun fromStr m enc h => ?_, fun fromStr m h hb => ?_,
    fun fromStr m h hb => ?_, fun fromStr => rfl⟩
  · simp only [enc_from_mime]
    rw [h]
  · simp only [enc_from_mime]
    rw [h, if_pos hb]
  · simp only [enc_from_mime]
    rw [h, if_neg hb]

/-- A concrete essence table with one entry, exercising the direct mapping
and each fallback of the encoding inference. -/
def mimeTable : String → Option Nat :=
  fun s => if s = "text/plain" then some encoding.TEXT_PLAIN else none

/-- C6 witness: the spec's four test rows evaluated through the inference. -/
theorem c6_encoding_inference_witness :
    enc_from_mime mimeTable (some { essence := "text/plain" }) = encoding.TEXT_PLAIN ∧
    enc_from_mime mimeTable (some { essence := "text/x-foo" }) = encoding.TEXT_PLAIN ∧
    enc_from_mime mimeTable (some { essence := "image/png" }) = encoding.APP_OCTET_STREAM ∧
    enc_from_mime mimeTable none = encoding.APP_OCTET_STREAM :=
  ⟨c6_encoding_inference.1 mimeTable { essence := "text/plain" }
      encoding.TEXT_PLAIN (by decide),
   c6_encoding_inference.2.1 mimeTable { essence := "text/x-foo" }
      (by decide) (by decide),
   c6_encoding_inference.2.2.1 mimeTable { essence := "image/png" }
      (by decide) (by decide),
   c6_encoding_inference.2.2.2 mimeTable⟩

/-- C10: computing the event-name kind string is total (the translation is a
plain function) and never yields an error: absent metadata, metadata whose
data-info fails to parse, and parsed data-info with no kind tag all yield the
default kind's rendered string, and a kind value the table cannot render
yields the literal PUT. -/
theorem c10_kind_string_total :
    ∀ (rd : List Nat → Except String DataInfo) (p : String) (b buf : List Nat),
      get_kind_str rd (p, b, none) = "PUT" ∧
      (∀ e : String, rd buf = Except.error e →
        get_kind_str rd (p, b, some buf) = "PUT") ∧
      (rd buf = Except.ok { kind := none } →
        get_kind_str rd (p, b, some buf) = "PUT") ∧
      (∀ (k : Nat) (err : String), rd buf = Except.ok { kind := some k } →
        kind.to_str k = Except.error err →
        get_kind_str rd (p, b, some buf) = "PUT") := by
  intro rd p b buf
  refine ⟨rfl, fun e h => ?_, fun h => ?_, fun k err h hts => ?_⟩
  · simp only [get_kind_str]
    rw [h]
    rfl
  · simp only [get_kind_str]
    rw [h]
    rfl
  · simp only [get_kind_str]
    rw [h]
    simp only [Option.or, Option.getD]
    rw [hts]

/-- A concrete data-info reader: fails on the empty buffer, parses a kind-free
data-info from the one-byte buffer 0, and a kind tag 99 otherwise. -/
def rdTest : List Nat → Except String DataInfo :=
  fun buf =>
    match buf with
    | [] => Except.error "parse failure"
    | [0] => Except.ok { kind := none }
    | _ => Except.ok { kind := some 99 }

/-- C10 witness: the four defaulting cases evaluated at concrete buffers
through the concrete reader. -/
theorem c10_kind_string_total_witness :
    get_kind_str rdTest ("/a", [], none) = "PUT" ∧
    get_kind_str rdTest ("/a", [], some []) = "PUT" ∧
    get_kind_str rdTest ("/a", [], some [0]) = "PUT" ∧
    get_kind_str rdTest ("/a", [], some [1, 2]) = "PUT" :=
  ⟨(c10_kind_string_total rdTest "/a" [] []).1,
   (c10_kind_string_total rdTest "/a" [] []).2.1 "parse failure" rfl,
   (c10_kind_string_total rdTest "/a" [] [0]).2.2.1 rfl,
   (c10_kind_string_total rdTest "/a" [] [1, 2]).2.2.2 99 "unknown kind" rfl rfl⟩

/-! ### Lemmas about the SSE loop -/

/-- Reassigning the arrival delay of an event through `f` (the sample and the
send outcome unchanged). -/
def reassignDelay (f : Nat → Nat) (e : SseEvent) : SseEvent :=
  { sample := e.sample, arrivalDelay := f e.arrivalDelay,
    sendWithin10s := e.sendWithin10s }

theorem sseLoop_ud_irrel (rd : List Nat → Except String DataInfo)
    (ud ud' : Except String Unit) (evs : List SseEvent) :
    sseLoop rd ud evs = sseLoop rd ud' evs := by
  induction evs with
  | nil => rfl
  | cons e rest ih =>
    simp only [sseLoop]
    by_cases h : e.sendWithin10s <;> simp [h, ih]

theorem sseLoop_delay_irrel (rd : List Nat → Except String DataInfo)
    (ud : Except String Unit) (f : Nat → Nat) (evs : List SseEvent) :
    sseLoop rd ud (evs.map (reassignDelay f)) = sseLoop rd ud evs := by
  induction evs with
  | nil => rfl
  | cons e rest ih =>
    simp only [List.map_cons, sseLoop, reassignDelay]
    by_cases h : e.sendWithin10s <;> simp [h, ih]

theorem sseLoop_all_sends (rd : List Nat → Except String DataInfo)
    (ud : Except String Unit) (evs : List SseEvent)
    (h : ∀ e ∈ evs, e.sendWithin10s = true) :
    sseLoop rd ud evs =
      { pushed := evs.map (fun e => (get_kind_str rd e.sample, sample_to_json e.sample)),
        undeclared := 0, terminated := false } := by
  induction evs with
  | nil => rfl
  | cons e rest ih =>
    have he : e.sendWithin10s = true := h e (List.mem_cons_self e rest)
    simp only [sseLoop, he, if_pos]
    rw [ih (fun x hx => h x (List.mem_cons_of_mem e hx))]
    rfl

theorem sseLoop_first_timeout (rd : List Nat → Except String DataInfo)
    (ud : Except String Unit) (pre post : List SseEvent) (ev : SseEvent)
    (hpre : ∀ e ∈ pre, e.sendWithin10s = true) (hev : ev.sendWithin10s = false) :
    sseLoop rd ud (pre ++ ev :: post) =
      { pushed := pre.map (fun e => (get_kind_str rd e.sample, sample_to_json e.sample)),
        undeclared := 1, terminated := true } := by
  induction pre with
  | nil =>
    simp only [List.nil_append, sseLoop, hev]
    rfl
  | cons e rest ih =>
    have he : e.sendWithin10s = true := hpre e (List.mem_cons_self e rest)
    have hsplit : (e :: rest) ++ ev :: post = e :: (rest ++ ev :: post) := rfl
    rw [hsplit]
    simp only [sseLoop, he, if_pos]
    rw [ih (fun x hx => hpre x (List.mem_cons_of_mem e hx))]
    rfl

/-- C1: on an accepted SSE connection the 10-second window bounds only the
outbound send: the loop's outcome is invariant under arbitrary reassignment
of sample arrival delays and under the undeclare call's own result (an
undeclare failure is not re-raised), a trace whose sends all complete leaves
the loop alive with no unregistration (the wait for the next sample is
unbounded), and once a sample has been obtained whose push does not complete
within the window the subscriber is unregistered exactly once, the events
pushed are exactly those before the stall, and the task terminates. -/
theorem c1_sse_idle_window :
    ∀ (rd : List Nat → Except String DataInfo) (ud ud' : Except String Unit)
      (pre post : List SseEvent) (ev : SseEvent) (f : Nat → Nat),
      (∀ e ∈ pre, e.sendWithin10s = true) → ev.sendWithin10s = false →
      (sseLoop rd ud (pre ++ ev :: post)).undeclared = 1 ∧
      (sseLoop rd ud (pre ++ ev :: post)).terminated = true ∧
      (sseLoop rd ud (pre ++ ev :: post)).pushed =
        pre.map (fun e => (get_kind_str rd e.sample, sample_to_json e.sample)) ∧
      sseLoop rd ud' (pre ++ ev :: post) = sseLoop rd ud (pre ++ ev :: post) ∧
      sseLoop rd ud ((pre ++ ev :: post).map (reassignDelay f)) =
        sseLoop rd ud (pre ++ ev :: post) ∧
      (sseLoop rd ud pre).terminated = false ∧
      (sseLoop rd ud pre).undeclared = 0 := by
  intro rd ud ud' pre post ev f hpre hev
  rw [sseLoop_first_timeout rd ud pre post ev hpre hev]
  refine ⟨rfl, rfl, rfl, ?_, ?_, ?_, ?_⟩
  · rw [sseLoop_ud_irrel rd ud' ud,
      sseLoop_first_timeout rd ud pre post ev hpre hev]
  · rw [sseLoop_delay_irrel rd ud f,
      sseLoop_first_timeout rd ud pre post ev hpre hev]
  · rw [sseLoop_all_sends rd ud pre hpre]
  · rw [sseLoop_all_sends rd ud pre hpre]

/-- A trace event whose send completes within the window. -/
def evPush : SseEvent :=
  { sample := ("/k", asciiBytes "v", none), arrivalDelay := 42,
    sendWithin10s := true }

/-- A trace event that arrives after a long delay and whose send stalls past
the window. -/
def evStall : SseEvent :=
  { sample := ("/k2", [], none), arrivalDelay := 3600,
    sendWithin10s := false }

/-- C1 witness: a concrete trace of one delivered event followed by a stalled
push, with a failing undeclare call: one unregistration, and the loop
terminates. -/
theorem c1_sse_idle_window_witness :
    (sseLoop rdTest (Except.error "undeclare failed") [evPush, evStall]).undeclared = 1 ∧
    (sseLoop rdTest (Except.error "undeclare failed") [evPush, evStall]).terminated = true :=
  ⟨(c1_sse_idle_window rdTest (Except.error "undeclare failed") (Except.ok ())
      [evPush] [] evStall (fun n => n + 50) (by decide) (by decide)).1,
   (c1_sse_idle_window rdTest (Except.error "undeclare failed") (Except.ok ())
      [evPush] [] evStall (fun n => n + 50) (by decide) (by decide)).2.1⟩

/-- The SSE environment of a connection whose subscriber declaration fails. -/
def envDeclareFail : SseEnv :=
  { declareResult := Except.error "declare failed", events := [],
    undeclareResult := Except.ok (), readDatainfo := fun _ => Except.error "x" }

/-- C2 counterexample: a GET negotiated to the streaming type whose
subscriber declaration fails is answered with the SSE upgrade and a panicking
detached task, not with an HTTP 500 carrying the error text. -/
theorem c2_declare_counterexample :
    get_handler (some "text/event-stream") (Except.ok []) envDeclareFail =
      GetOutcome.sseUpgrade TaskOutcome.panicked ∧
    isServerError500
      (get_handler (some "text/event-stream") (Except.ok []) envDeclareFail)
      "declare failed" = false :=
  ⟨rfl, rfl⟩

/-- C2 amended: for every GET request negotiated to the streaming type, a
failure declaring the native subscription is not surfaced as HTTP 500; the
handler returns the streaming upgrade regardless, and the detached task
terminates by panicking on the unwrapped declare error. -/
theorem c2_declare_amended :
    ∀ (accept : Option String) (qr : Except String (List Reply)) (env : SseEnv)
      (e : String),
      first_accept accept = "text/event-stream" →
      env.declareResult = Except.error e →
      get_handler accept qr env = GetOutcome.sseUpgrade TaskOutcome.panicked ∧
      isServerError500 (get_handler accept qr env) e = false := by
  intro accept qr env e h1 h2
  have hg : get_handler accept qr env = GetOutcome.sseUpgrade (sseTaskRun env) := by
    simp only [get_handler, h1]
    rfl
  have ht : sseTaskRun env = TaskOutcome.panicked := by
    simp only [sseTaskRun, h2]
  rw [hg, ht]
  exact ⟨rfl, rfl⟩

/-- C2 amended witness: the amended statement evaluated on the concrete
failing-declare environment. -/
theorem c2_declare_amended_witness :
    get_handler (some "text/event-stream") (Except.error "query never ran")
      envDeclareFail = GetOutcome.sseUpgrade TaskOutcome.panicked :=
  (c2_declare_amended (some "text/event-stream") (Except.error "query never ran")
    envDeclareFail "declare failed" (by decide) rfl).1
